import Mathlib

/-!
Verification of the Mocktailverse enrichment Lambda (`src/lambda/transform.py`)
against its natural-language specification.

The Python module is shallowly embedded:
* a JSON-ish record (Python `dict`) is an association list `Dict` of string
  keys and `Val` values, with first-match lookup `dget` and in-place update
  `dset` (Python dict assignment keeps the position of an existing key and
  appends a new one);
* Python floats are modelled by `ℚ` (every numeric literal in the module —
  0.5, 0.75, 3.0, ... — is exactly representable in binary floating point and
  all arithmetic performed on them is exact, so `ℚ` is a faithful model on
  the values the module manipulates); Python `int(x)` truncation toward zero
  is `truncQ`;
* fallible Python code (raised exceptions) returns `Except PyError _`;
  `ClientError`, `ValueError` and `ZeroDivisionError` are distinguished
  because the module catches only `ClientError`;
* the AWS collaborators (S3 reads/writes, the DynamoDB put) are oracles in
  an `Env` record, as are the two wall-clock reads (`datetime.now()`).
-/

/-- Result of applying Python `float(...)` to an ingredient's `amount` value:
either a number, a string that `float` parses to the number `q`, or a string
that `float` rejects with `ValueError` (string parsing itself is abstracted
into the constructor split; nothing in the repository depends on how a
particular string parses). -/
inductive AmountV where
  | num (q : ℚ)
  | numStr (s : String) (q : ℚ)
  | badStr (s : String)
deriving DecidableEq

/-- An ingredient dict `{name: ..., amount: ...}`; either key may be absent. -/
structure Ingredient where
  name : Option String
  amount : Option AmountV
deriving DecidableEq

/-- Values stored in a cocktail record. `vIngs` is a list of ingredient
dicts, `vTags` a list of strings, `vOther` any value the enrichment code
never inspects (extra fields of the input record). -/
inductive Val where
  | vStr (s : String)
  | vNum (q : ℚ)
  | vInt (n : ℤ)
  | vBool (b : Bool)
  | vIngs (l : List Ingredient)
  | vTags (l : List String)
  | vOther (id : ℕ)
deriving DecidableEq

/-- A Python dict with string keys, as an association list. -/
abbrev Dict := List (String × Val)

/-- Exceptions the module can raise or catch. -/
inductive PyError where
  | zeroDivision
  | valueError (msg : String)
  | clientError (msg : String)
deriving DecidableEq

/-- `d[k]` lookup (first entry with key `k`). -/
def dget : Dict → String → Option Val
  | [], _ => none
  | (k1, v1) :: rest, k => if k1 = k then some v1 else dget rest k

/-- `d[k] = v` assignment: replaces the value at an existing key in place,
otherwise appends the new entry (Python dict insertion-order semantics). -/
def dset : Dict → String → Val → Dict
  | [], k, v => [(k, v)]
  | (k1, v1) :: rest, k, v =>
      if k1 = k then (k, v) :: rest else (k1, v1) :: dset rest k v

/-- Is the first character list a prefix of the second? -/
def prefixB : List Char → List Char → Bool
  | [], _ => true
  | _ :: _, [] => false
  | a :: as, b :: bs => (a == b) && prefixB as bs

/-- Does `needle` occur as a contiguous run inside the second list? -/
def subSearch (needle : List Char) : List Char → Bool
  | [] => needle.isEmpty
  | a :: rest => prefixB needle (a :: rest) || subSearch needle rest

/-- Python `needle in hay` substring test on strings. -/
def strContains (hay needle : String) : Bool :=
  subSearch needle.data hay.data

/-- `ingredient.get('name', '')`. -/
def ingName (i : Ingredient) : String := i.name.getD ""

/-- `ingredient.get('amount', 0)` followed by `float(...)`: an absent amount
defaults to `0`; a string `float` cannot parse raises `ValueError`. -/
def pyFloat : Option AmountV → Except PyError ℚ
  | none => .ok 0
  | some (.num q) => .ok q
  | some (.numStr _ q) => .ok q
  | some (.badStr s) =>
      .error (.valueError ("could not convert string to float: " ++ s))

/-- Python `int(q)`: truncation toward zero. -/
def truncQ (q : ℚ) : ℤ := if 0 ≤ q then ⌊q⌋ else ⌈q⌉

/-- `cocktail.get('ingredients', [])` (the module only ever treats this value
as a list of ingredient dicts, per the data model). -/
def getIngredients (d : Dict) : List Ingredient :=
  match dget d "ingredients" with
  | some (.vIngs l) => l
  | _ => []

/-- `cocktail.get('instructions', '')`. -/
def getInstructions (d : Dict) : String :=
  match dget d "instructions" with
  | some (.vStr s) => s
  | _ => ""

/-- `cocktail.get('category', '')`. -/
def getCategory (d : Dict) : String :=
  match dget d "category" with
  | some (.vStr s) => s
  | _ => ""

/-- `cocktail.get('glass', '')`. -/
def getGlass (d : Dict) : String :=
  match dget d "glass" with
  | some (.vStr s) => s
  | _ => ""

/-- The specialty-ingredient substring table. -/
def specialty_ingredients : List String :=
  ["elderflower", "orgeat", "falernum", "amaro", "chartreuse"]

/-- The fresh-ingredient substring table. -/
def fresh_indicators : List String :=
  ["juice", "mint", "lemon", "lime", "orange"]

/-- Does the ingredient's lowercased name contain any specialty substring? -/
def specialtyHit (i : Ingredient) : Bool :=
  specialty_ingredients.any (fun s => strContains (ingName i).toLower s)

/-- Does the ingredient's lowercased name contain any fresh substring? -/
def freshHit (i : Ingredient) : Bool :=
  fresh_indicators.any (fun s => strContains (ingName i).toLower s)

/-- `calculate_complexity_score`: base `min(0.5*count, 3.0)`, +1.0 per
specialty ingredient, +0.5 per fresh ingredient, capped at 10.0. -/
def calculate_complexity_score (ingredients : List Ingredient) : ℚ :=
  let base := min ((ingredients.length : ℚ) * (1/2)) 3
  let withSpecialty :=
    ingredients.foldl (fun s i => if specialtyHit i then s + 1 else s) base
  let withFresh :=
    ingredients.foldl (fun s i => if freshHit i then s + (1/2) else s)
      withSpecialty
  min withFresh 10

/-- `estimate_prep_time`: base 3, +2 for "muddle", +1 for "shake",
+`max(0, steps-2)` where `steps` counts '.' and ';', capped at 15.
The `ingredients` parameter is unused, exactly as in the source. -/
def estimate_prep_time (ingredients : List Ingredient)
    (instructions : String) : ℤ :=
  let base1 : ℤ := 3
  let base2 := if strContains instructions.toLower "muddle"
    then base1 + 2 else base1
  let base3 := if strContains instructions.toLower "shake"
    then base2 + 1 else base2
  let steps : ℤ := (instructions.data.count '.' : ℤ)
    + (instructions.data.count ';' : ℤ)
  min (base3 + max 0 (steps - 2)) 15

/-- The ordered spirit keyword map. -/
def spirit_map : List (String × List String) :=
  [("vodka", ["vodka", "absolut", "smirnoff"]),
   ("gin", ["gin", "hendrick", "tanqueray"]),
   ("rum", ["rum", "bacardi", "havana club"]),
   ("tequila", ["tequila", "patron", "reposado"]),
   ("whiskey", ["whiskey", "bourbon", "scotch", "rye"]),
   ("brandy", ["brandy", "cognac", "armagnac"])]

/-- Inner two loops of `identify_spirit_type`: does some ingredient's
lowercased name contain some keyword of this spirit? -/
def spiritMatches (keywords : List String)
    (ingredients : List Ingredient) : Bool :=
  ingredients.any (fun i =>
    keywords.any (fun k => strContains (ingName i).toLower k))

/-- Outer loop of `identify_spirit_type`: first spirit in table order with a
matching ingredient; the early `return spirit` is the recursion's base. -/
def findSpirit (ingredients : List Ingredient) :
    List (String × List String) → String
  | [] => "non-alcoholic"
  | (spirit, keywords) :: rest =>
      if spiritMatches keywords ingredients then spirit
      else findSpirit ingredients rest

/-- `identify_spirit_type`. -/
def identify_spirit_type (ingredients : List Ingredient) : String :=
  findSpirit ingredients spirit_map

/-- The spirit-type deriver as §4.2 of the spec words it: the first entry of
the fixed keyword map for which some ingredient's lowercased name contains
one of its keywords wins; otherwise "non-alcoholic". -/
def identify_spirit_type_fromSpec (ingredients : List Ingredient) : String :=
  match spirit_map.find? (fun p => spiritMatches p.2 ingredients) with
  | some p => p.1
  | none => "non-alcoholic"

/-- The ordered calorie-per-oz map. -/
def calorie_map : List (String × ℤ) :=
  [("rum", 97), ("vodka", 64), ("gin", 70), ("tequila", 69),
   ("whiskey", 70), ("brandy", 65), ("triple sec", 75), ("lime juice", 8),
   ("simple syrup", 53), ("soda", 0)]

/-- Inner loop of `estimate_calories` for one ingredient: first calorie-map
key contained in the lowercased name contributes `int(cal * amount)`; the
`break` means at most one key matches; no match contributes 0. -/
def ingredientContribution (name : String) (amount : ℚ) : ℤ :=
  match calorie_map.find? (fun p => strContains name p.1) with
  | some p => truncQ ((p.2 : ℚ) * amount)
  | none => 0

/-- The accumulation loop of `estimate_calories`; `float(...)` on a bad
amount string raises out of the loop. -/
def calLoop : ℤ → List Ingredient → Except PyError ℤ
  | total, [] => .ok total
  | total, i :: rest =>
      match pyFloat i.amount with
      | .error e => .error e
      | .ok amount =>
          calLoop (total + ingredientContribution (ingName i).toLower amount)
            rest

/-- `estimate_calories`. -/
def estimate_calories (ingredients : List Ingredient) : Except PyError ℤ :=
  calLoop 0 ingredients

/-- `'rum' in ' '.join([ing.get('name', '').lower() for ing in ingredients])`. -/
def is_alcoholic_flag (ingredients : List Ingredient) : Bool :=
  strContains
    (String.intercalate " " (ingredients.map (fun i => (ingName i).toLower)))
    "rum"

/-- `len(instructions.split())`: whitespace-split, empty tokens dropped. -/
def instruction_word_count (instructions : String) : ℕ :=
  ((instructions.split Char.isWhitespace).filter (fun w => w ≠ "")).length

/-- The `if/elif/else` complexity tag of `generate_tags`. -/
def complexityTag (complexity : ℚ) : String :=
  if complexity < 3 then "simple"
  else if complexity < 6 then "intermediate"
  else "complex"

/-- The three complexity-level tag names. -/
def complexityLevels : List String := ["simple", "intermediate", "complex"]

/-- The tag list of `generate_tags` before deduplication: each conditional
`tags.append(...)` becomes the concatenation of a conditional singleton. -/
def rawTags (cocktail : Dict) : List String :=
  (if (getCategory cocktail).toLower = "" then []
   else [(getCategory cocktail).toLower]) ++
  (if (getGlass cocktail).toLower = "" then []
   else [(getGlass cocktail).toLower]) ++
  (if identify_spirit_type (getIngredients cocktail) = "non-alcoholic" then []
   else [identify_spirit_type (getIngredients cocktail)]) ++
  (if strContains (getInstructions cocktail).toLower "shake"
   then ["shaken"] else []) ++
  (if strContains (getInstructions cocktail).toLower "stir"
   then ["stirred"] else []) ++
  (if strContains (getInstructions cocktail).toLower "muddle"
   then ["muddled"] else []) ++
  [complexityTag (calculate_complexity_score (getIngredients cocktail))]

/-- `generate_tags`: `list(set(tags))` modelled as deduplication (Python's
set fixes membership; the resulting order carries no meaning). -/
def generate_tags (cocktail : Dict) : List String :=
  (rawTags cocktail).dedup

/-- The enrichment timestamp and the derived-field keys, in the order the
handler assigns them. -/
def derivedKeys : List String :=
  ["enriched_at", "ingredient_count", "complexity_score",
   "instruction_word_count", "estimated_prep_time", "is_alcoholic",
   "spirit_type", "estimated_calories", "tags"]

/-- The record built by `enrich_single_cocktail` once `estimate_calories`
has returned `cal`: `cocktail.copy()` followed by the nine key assignments,
in source order.  `generate_tags` is applied to the original `cocktail`
exactly as in the source (it re-reads only base fields, so this matters
not). -/
def enrichedDict (now : String) (cocktail : Dict) (cal : ℤ) : Dict :=
  dset (dset (dset (dset (dset (dset (dset (dset (dset cocktail
    "enriched_at" (.vStr now))
    "ingredient_count" (.vInt ((getIngredients cocktail).length : ℤ)))
    "complexity_score"
      (.vNum (calculate_complexity_score (getIngredients cocktail))))
    "instruction_word_count"
      (.vInt (instruction_word_count (getInstructions cocktail) : ℤ)))
    "estimated_prep_time"
      (.vInt (estimate_prep_time (getIngredients cocktail)
        (getInstructions cocktail))))
    "is_alcoholic" (.vBool (is_alcoholic_flag (getIngredients cocktail))))
    "spirit_type" (.vStr (identify_spirit_type (getIngredients cocktail))))
    "estimated_calories" (.vInt cal))
    "tags" (.vTags (generate_tags cocktail))

/-- `enrich_single_cocktail`: a `ValueError` raised by `float(...)` inside
`estimate_calories` propagates (nothing in the module catches it); the
partially filled copy is discarded with the exception.  `now` stands for
`datetime.now().isoformat()`. -/
def enrich_single_cocktail (now : String) (cocktail : Dict) :
    Except PyError Dict :=
  match estimate_calories (getIngredients cocktail) with
  | .error e => .error e
  | .ok cal => .ok (enrichedDict now cocktail cal)

/-- The enrichment loop of `enrich_cocktail_data`: input order preserved,
first exception aborts. -/
def enrich_all (now : String) : List Dict → Except PyError (List Dict)
  | [] => .ok []
  | c :: rest =>
      match enrich_single_cocktail now c with
      | .error e => .error e
      | .ok e =>
          match enrich_all now rest with
          | .error e2 => .error e2
          | .ok es => .ok (e :: es)

/-- The structured result `lambda_handler` returns on success (the JSON
body's fields). -/
structure LambdaResult where
  statusCode : ℕ
  records_processed : ℕ
  output_location : String
deriving DecidableEq

/-- The summary record `write_processing_summary` builds for DynamoDB. -/
structure BatchSummary where
  date_partition : String
  processed_at : String
  record_count : ℕ
  total_ingredients : ℤ
  avg_complexity : ℚ
deriving DecidableEq

/-- The external collaborators and the two wall-clock reads: S3 `get_object`
+ JSON parse (already normalised to a list, per the read contract), S3
`put_object`, DynamoDB `put_item`, `datetime.now().isoformat()` and
`datetime.now().strftime('%Y/%m/%d')`. -/
structure Env where
  readS3 : String → String → Except PyError (List Dict)
  writeS3 : List Dict → String → String → Except PyError Unit
  putItem : BatchSummary → Except PyError Unit
  now : String
  today : String

/-- `read_from_s3`: catches `ClientError` only to log it, then re-raises,
so the outcome is the adapter's outcome. -/
def read_from_s3 (env : Env) (bucket key : String) :
    Except PyError (List Dict) :=
  env.readS3 bucket key

/-- `write_to_s3`: catches `ClientError` only to log it, then re-raises. -/
def write_to_s3 (env : Env) (data : List Dict) (bucket key : String) :
    Except PyError Unit :=
  env.writeS3 data bucket key

/-- `enrich_cocktail_data`. -/
def enrich_cocktail_data (env : Env) (input_bucket date_partition : String) :
    Except PyError (List Dict) :=
  match read_from_s3 env input_bucket
      ("transformed/" ++ date_partition ++ "/transformed_cocktail_data.json")
    with
  | .error e => .error e
  | .ok cocktail_data => enrich_all env.now cocktail_data

/-- `c.get('ingredient_count', 0)` as used by the summary (an integer
field; absent defaults to 0). -/
def getIntD (d : Dict) (k : String) : ℤ :=
  match dget d k with
  | some (.vInt n) => n
  | _ => 0

/-- `c.get('complexity_score', 0)` as used by the summary (a float field;
absent defaults to 0). -/
def getNumD (d : Dict) (k : String) : ℚ :=
  match dget d k with
  | some (.vNum q) => q
  | some (.vInt n) => (n : ℚ)
  | _ => 0

/-- The body of `write_processing_summary`'s `try` block: building the
summary dict divides `sum(complexity_score)` by `len(data)` with no guard,
so a zero-record batch raises `ZeroDivisionError` here; otherwise the
outcome is the DynamoDB put's outcome. -/
def summaryBody (env : Env) (data : List Dict) (date_partition : String) :
    Except PyError Unit :=
  if data.length = 0 then .error .zeroDivision
  else
    env.putItem
      ⟨date_partition, env.now, data.length,
       (data.map (fun c => getIntD c "ingredient_count")).sum,
       (data.map (fun c => getNumD c "complexity_score")).sum
         / (data.length : ℚ)⟩

/-- `write_processing_summary`: `except ClientError` swallows exactly the
`ClientError`s; anything else (in particular `ZeroDivisionError`)
propagates. -/
def write_processing_summary (env : Env) (data : List Dict)
    (date_partition : String) : Except PyError Unit :=
  match summaryBody env data date_partition with
  | .error (.clientError _) => .ok ()
  | r => r

/-- `lambda_handler`.  The three `event.get(...)` reads are the three
optional arguments; the outer `except Exception` logs and re-raises, so the
propagated error is unchanged. -/
def lambda_handler (env : Env)
    (event_input_bucket event_output_bucket event_date_partition :
      Option String) : Except PyError LambdaResult :=
  let input_bucket := event_input_bucket.getD "mocktailverse-processed-data"
  let output_bucket := event_output_bucket.getD "mocktailverse-processed-data"
  let date_partition := event_date_partition.getD env.today
  match enrich_cocktail_data env input_bucket date_partition with
  | .error e => .error e
  | .ok enriched_data =>
      let output_key :=
        "enriched/" ++ date_partition ++ "/enriched_cocktail_data.json"
      match write_to_s3 env enriched_data output_bucket output_key with
      | .error e => .error e
      | .ok _ =>
          match write_processing_summary env enriched_data date_partition with
          | .error e => .error e
          | .ok _ =>
              .ok ⟨200, enriched_data.length,
                "s3://" ++ output_bucket ++ "/" ++ output_key⟩

/-- Did the computation return normally (no exception)? -/
def exceptOkB {α : Type} : Except PyError α → Bool
  | .ok _ => true
  | .error _ => false

/-- Value of a normal return, 0 on an exception (projection used only to
state results). -/
def okValZ : Except PyError ℤ → ℤ
  | .ok n => n
  | .error _ => 0

/-- Field lookup on a normal enrichment result (projection used only to
state results). -/
def okGet (r : Except PyError Dict) (k : String) : Option Val :=
  match r with
  | .ok d => dget d k
  | .error _ => none

/-- Does the `tags` field of a normal enrichment result contain tag `t`? -/
def tagsInclude (r : Except PyError Dict) (t : String) : Bool :=
  match r with
  | .ok d =>
      match dget d "tags" with
      | some (.vTags l) => l.contains t
      | _ => false
  | .error _ => false

/-- Is this `amount` value absent or a non-negative parsed number? -/
def amountNonneg : Option AmountV → Bool
  | none => true
  | some (.num q) => decide (0 ≤ q)
  | some (.numStr _ q) => decide (0 ≤ q)
  | some (.badStr _) => false

/-- The §8 scenario recipe: Light Rum 2, Lime Juice 1, Simple Syrup 0.75,
shaken. -/
def scenarioRecipe : Dict :=
  [("ingredients", .vIngs
      [⟨some "Light Rum", some (.num 2)⟩,
       ⟨some "Lime Juice", some (.num 1)⟩,
       ⟨some "Simple Syrup", some (.num (3/4))⟩]),
   ("instructions", .vStr "Shake all ingredients with ice. Strain into glass.")]

/-- A recipe whose category is itself a complexity-level word while its six
plain ingredients force a complexity score of 3.0 (an "intermediate"
recipe). -/
def categorySimpleRecipe : Dict :=
  [("category", .vStr "Simple"),
   ("ingredients", .vIngs (List.replicate 6 ⟨some "aa", some (.num 1)⟩))]

/-- The enrichment of the empty dict at timestamp "A", written out. -/
def emptyEnriched : Dict :=
  [("enriched_at", .vStr "A"), ("ingredient_count", .vInt 0),
   ("complexity_score", .vNum 0), ("instruction_word_count", .vInt 0),
   ("estimated_prep_time", .vInt 3), ("is_alcoholic", .vBool false),
   ("spirit_type", .vStr "non-alcoholic"), ("estimated_calories", .vInt 0),
   ("tags", .vTags ["simple"])]

/-- An environment whose storage always succeeds and whose input collection
is the empty batch. -/
def emptyBatchEnv : Env :=
  ⟨fun _ _ => .ok [], fun _ _ _ => .ok (), fun _ => .ok (),
   "2024-01-01T00:00:00", "2024/01/01"⟩

/-- An ingredient whose `amount` is a string `float(...)` rejects. -/
def badAmountIngredient : Ingredient :=
  ⟨some "Light Rum", some (.badStr "two oz")⟩

/-- An environment whose storage always succeeds and whose input collection
is the single recipe with the unparsable amount. -/
def badAmountEnv : Env :=
  ⟨fun _ _ => .ok [[("ingredients", .vIngs [badAmountIngredient])]],
   fun _ _ _ => .ok (), fun _ => .ok (),
   "2024-01-01T00:00:00", "2024/01/01"⟩

example : calculate_complexity_score [] = 0 := by with_unfolding_all rfl
example : estimate_prep_time [] "" = 3 := by with_unfolding_all rfl
example : identify_spirit_type [⟨some "Light Rum", none⟩] = "rum" := by
  with_unfolding_all rfl
example : estimate_calories [⟨some "Light Rum", some (.num 2)⟩] = .ok 194 := by
  with_unfolding_all rfl

lemma dget_dset (d : Dict) (k : String) (v : Val) (k' : String) :
    dget (dset d k v) k' = if k' = k then some v else dget d k' := by
  induction d with
  | nil =>
      by_cases h : k' = k
      · subst h; simp [dset, dget]
      · have h2 : ¬k = k' := fun hh => h hh.symm
        simp [dset, dget, h, h2]
  | cons p rest ih =>
      obtain ⟨k1, v1⟩ := p
      by_cases h1 : k1 = k
      · subst h1
        by_cases h : k' = k1
        · subst h; simp [dset, dget]
        · have h2 : ¬k1 = k' := fun hh => h hh.symm
          simp [dset, dget, h, h2]
      · by_cases h2 : k1 = k'
        · subst h2
          simp [dset, dget, h1]
        · simp [dset, dget, h1, h2, ih]

lemma dget_dset_self (d : Dict) (k : String) (v : Val) :
    dget (dset d k v) k = some v := by
  simp [dget_dset]

lemma dget_dset_ne (d : Dict) (k : String) (v : Val) (k' : String)
    (h : k' ≠ k) : dget (dset d k v) k' = dget d k' := by
  simp [dget_dset, h]

lemma dget_enrichedDict_of_not_derived (now : String) (c : Dict) (cal : ℤ)
    (k : String) (hk : k ∉ derivedKeys) :
    dget (enrichedDict now c cal) k = dget c k := by
  simp only [derivedKeys, List.mem_cons, List.not_mem_nil, or_false,
    not_or] at hk
  obtain ⟨h1, h2, h3, h4, h5, h6, h7, h8, h9⟩ := hk
  simp only [enrichedDict]
  rw [dget_dset_ne _ _ _ _ h9, dget_dset_ne _ _ _ _ h8,
    dget_dset_ne _ _ _ _ h7, dget_dset_ne _ _ _ _ h6,
    dget_dset_ne _ _ _ _ h5, dget_dset_ne _ _ _ _ h4,
    dget_dset_ne _ _ _ _ h3, dget_dset_ne _ _ _ _ h2,
    dget_dset_ne _ _ _ _ h1]

lemma dget_enrichedDict_enriched_at (now : String) (c : Dict) (cal : ℤ) :
    dget (enrichedDict now c cal) "enriched_at" = some (.vStr now) := by
  simp only [enrichedDict]
  rw [dget_dset_ne _ _ _ _ (by decide), dget_dset_ne _ _ _ _ (by decide),
    dget_dset_ne _ _ _ _ (by decide), dget_dset_ne _ _ _ _ (by decide),
    dget_dset_ne _ _ _ _ (by decide), dget_dset_ne _ _ _ _ (by decide),
    dget_dset_ne _ _ _ _ (by decide), dget_dset_ne _ _ _ _ (by decide),
    dget_dset_self]

lemma dget_enrichedDict_ingredient_count (now : String) (c : Dict) (cal : ℤ) :
    dget (enrichedDict now c cal) "ingredient_count"
      = some (.vInt ((getIngredients c).length : ℤ)) := by
  simp only [enrichedDict]
  rw [dget_dset_ne _ _ _ _ (by decide), dget_dset_ne _ _ _ _ (by decide),
    dget_dset_ne _ _ _ _ (by decide), dget_dset_ne _ _ _ _ (by decide),
    dget_dset_ne _ _ _ _ (by decide), dget_dset_ne _ _ _ _ (by decide),
    dget_dset_ne _ _ _ _ (by decide), dget_dset_self]

lemma dget_enrichedDict_complexity (now : String) (c : Dict) (cal : ℤ) :
    dget (enrichedDict now c cal) "complexity_score"
      = some (.vNum (calculate_complexity_score (getIngredients c))) := by
  simp only [enrichedDict]
  rw [dget_dset_ne _ _ _ _ (by decide), dget_dset_ne _ _ _ _ (by decide),
    dget_dset_ne _ _ _ _ (by decide), dget_dset_ne _ _ _ _ (by decide),
    dget_dset_ne _ _ _ _ (by decide), dget_dset_ne _ _ _ _ (by decide),
    dget_dset_self]

lemma dget_enrichedDict_word_count (now : String) (c : Dict) (cal : ℤ) :
    dget (enrichedDict now c cal) "instruction_word_count"
      = some (.vInt (instruction_word_count (getInstructions c) : ℤ)) := by
  simp only [enrichedDict]
  rw [dget_dset_ne _ _ _ _ (by decide), dget_dset_ne _ _ _ _ (by decide),
    dget_dset_ne _ _ _ _ (by decide), dget_dset_ne _ _ _ _ (by decide),
    dget_dset_ne _ _ _ _ (by decide), dget_dset_self]

lemma dget_enrichedDict_prep (now : String) (c : Dict) (cal : ℤ) :
    dget (enrichedDict now c cal) "estimated_prep_time"
      = some (.vInt (estimate_prep_time (getIngredients c)
          (getInstructions c))) := by
  simp only [enrichedDict]
  rw [dget_dset_ne _ _ _ _ (by decide), dget_dset_ne _ _ _ _ (by decide),
    dget_dset_ne _ _ _ _ (by decide), dget_dset_ne _ _ _ _ (by decide),
    dget_dset_self]

lemma dget_enrichedDict_alcoholic (now : String) (c : Dict) (cal : ℤ) :
    dget (enrichedDict now c cal) "is_alcoholic"
      = some (.vBool (is_alcoholic_flag (getIngredients c))) := by
  simp only [enrichedDict]
  rw [dget_dset_ne _ _ _ _ (by decide), dget_dset_ne _ _ _ _ (by decide),
    dget_dset_ne _ _ _ _ (by decide), dget_dset_self]

lemma dget_enrichedDict_spirit (now : String) (c : Dict) (cal : ℤ) :
    dget (enrichedDict now c cal) "spirit_type"
      = some (.vStr (identify_spirit_type (getIngredients c))) := by
  simp only [enrichedDict]
  rw [dget_dset_ne _ _ _ _ (by decide), dget_dset_ne _ _ _ _ (by decide),
    dget_dset_self]

lemma dget_enrichedDict_calories (now : String) (c : Dict) (cal : ℤ) :
    dget (enrichedDict now c cal) "estimated_calories"
      = some (.vInt cal) := by
  simp only [enrichedDict]
  rw [dget_dset_ne _ _ _ _ (by decide), dget_dset_self]

lemma dget_enrichedDict_tags (now : String) (c : Dict) (cal : ℤ) :
    dget (enrichedDict now c cal) "tags"
      = some (.vTags (generate_tags c)) := by
  simp only [enrichedDict]
  rw [dget_dset_self]

lemma getIngredients_enrichedDict (now : String) (c : Dict) (cal : ℤ) :
    getIngredients (enrichedDict now c cal) = getIngredients c := by
  unfold getIngredients
  rw [dget_enrichedDict_of_not_derived _ _ _ _ (by decide)]

lemma getInstructions_enrichedDict (now : String) (c : Dict) (cal : ℤ) :
    getInstructions (enrichedDict now c cal) = getInstructions c := by
  unfold getInstructions
  rw [dget_enrichedDict_of_not_derived _ _ _ _ (by decide)]

lemma getCategory_enrichedDict (now : String) (c : Dict) (cal : ℤ) :
    getCategory (enrichedDict now c cal) = getCategory c := by
  unfold getCategory
  rw [dget_enrichedDict_of_not_derived _ _ _ _ (by decide)]

lemma getGlass_enrichedDict (now : String) (c : Dict) (cal : ℤ) :
    getGlass (enrichedDict now c cal) = getGlass c := by
  unfold getGlass
  rw [dget_enrichedDict_of_not_derived _ _ _ _ (by decide)]

lemma generate_tags_congr (c c' : Dict)
    (h1 : getCategory c = getCategory c') (h2 : getGlass c = getGlass c')
    (h3 : getIngredients c = getIngredients c')
    (h4 : getInstructions c = getInstructions c') :
    generate_tags c = generate_tags c' := by
  unfold generate_tags rawTags
  rw [h1, h2, h3, h4]

lemma le_foldl_bonus (p : Ingredient → Bool) (c : ℚ) (hc : 0 ≤ c) :
    ∀ (l : List Ingredient) (init : ℚ),
      init ≤ l.foldl (fun s i => if p i then s + c else s) init
  | [], init => le_refl init
  | i :: rest, init => by
      have step : init ≤ (if p i then init + c else init) := by
        by_cases h : p i <;> simp [h] <;> linarith
      calc init ≤ (if p i then init + c else init) := step
        _ ≤ _ := le_foldl_bonus p c hc rest _

lemma calculate_complexity_score_bounds (ingredients : List Ingredient) :
    0 ≤ calculate_complexity_score ingredients ∧
      calculate_complexity_score ingredients ≤ 10 := by
  unfold calculate_complexity_score
  have hbase : (0 : ℚ) ≤ min ((ingredients.length : ℚ) * (1/2)) 3 :=
    le_min (by positivity) (by norm_num)
  have h1 := le_foldl_bonus specialtyHit 1 (by norm_num) ingredients
    (min ((ingredients.length : ℚ) * (1/2)) 3)
  have h2 := le_foldl_bonus freshHit (1/2) (by norm_num) ingredients
    (ingredients.foldl (fun s i => if specialtyHit i then s + 1 else s)
      (min ((ingredients.length : ℚ) * (1/2)) 3))
  constructor
  · exact le_min (by linarith) (by norm_num)
  · exact min_le_right _ _

lemma estimate_prep_time_bounds (ingredients : List Ingredient)
    (instructions : String) :
    3 ≤ estimate_prep_time ingredients instructions ∧
      estimate_prep_time ingredients instructions ≤ 15 := by
  unfold estimate_prep_time
  dsimp only
  split_ifs <;> constructor <;> omega

lemma findSpirit_eq_find (ings : List Ingredient) :
    ∀ m : List (String × List String),
      findSpirit ings m =
        (match m.find? (fun p => spiritMatches p.2 ings) with
         | some p => p.1
         | none => "non-alcoholic")
  | [] => rfl
  | (s, kw) :: rest => by
      by_cases h : spiritMatches kw ings
      · simp [findSpirit, List.find?, h]
      · simp only [findSpirit, List.find?, h, if_false, Bool.false_eq_true]
        rw [findSpirit_eq_find ings rest]

lemma findSpirit_mem (ings : List Ingredient) :
    ∀ m : List (String × List String),
      findSpirit ings m = "non-alcoholic" ∨
        findSpirit ings m ∈ m.map Prod.fst
  | [] => Or.inl rfl
  | (s, kw) :: rest => by
      by_cases h : spiritMatches kw ings
      · right; simp [findSpirit, h]
      · rcases findSpirit_mem ings rest with h2 | h2
        · left; simpa [findSpirit, h] using h2
        · right; simp [findSpirit, h, h2]

lemma identify_spirit_type_not_level (ings : List Ingredient) :
    identify_spirit_type ings ∉ complexityLevels := by
  unfold identify_spirit_type
  rcases findSpirit_mem ings spirit_map with h | h
  · rw [h]; decide
  · have hm : spirit_map.map Prod.fst =
        ["vodka", "gin", "rum", "tequila", "whiskey", "brandy"] := rfl
    rw [hm] at h
    simp only [List.mem_cons, List.not_mem_nil, or_false] at h
    rcases h with h | h | h | h | h | h <;> rw [h] <;> decide

lemma complexityTag_mem_levels (q : ℚ) :
    complexityTag q ∈ complexityLevels := by
  unfold complexityTag complexityLevels
  split_ifs <;> simp

lemma calorie_map_vals_nonneg : ∀ p ∈ calorie_map, 0 ≤ p.2 := by decide

lemma ingredientContribution_nonneg (name : String) (amount : ℚ)
    (h : 0 ≤ amount) : 0 ≤ ingredientContribution name amount := by
  unfold ingredientContribution
  cases hf : calorie_map.find? (fun p => strContains name p.1) with
  | none => simp
  | some p =>
      have hp : p ∈ calorie_map := List.mem_of_find?_eq_some hf
      have h2 : (0 : ℚ) ≤ (p.2 : ℚ) :=
        Int.cast_nonneg.mpr (calorie_map_vals_nonneg p hp)
      have h3 : (0 : ℚ) ≤ (p.2 : ℚ) * amount := mul_nonneg h2 h
      simp only [truncQ, if_pos h3]
      exact Int.floor_nonneg.mpr h3

lemma pyFloat_of_amountNonneg (a : Option AmountV)
    (h : amountNonneg a = true) : ∃ q, pyFloat a = .ok q ∧ 0 ≤ q := by
  match a with
  | none => exact ⟨0, rfl, le_refl 0⟩
  | some (.num q) =>
      exact ⟨q, rfl, by simpa [amountNonneg] using h⟩
  | some (.numStr s q) =>
      exact ⟨q, rfl, by simpa [amountNonneg] using h⟩
  | some (.badStr s) => simp [amountNonneg] at h

lemma calLoop_nonneg :
    ∀ (l : List Ingredient) (acc : ℤ),
      (∀ i ∈ l, amountNonneg i.amount = true) → 0 ≤ acc →
      exceptOkB (calLoop acc l) = true ∧ 0 ≤ okValZ (calLoop acc l)
  | [], acc, _, hacc => ⟨rfl, hacc⟩
  | i :: rest, acc, h, hacc => by
      obtain ⟨q, hq, hq0⟩ :=
        pyFloat_of_amountNonneg i.amount (h i (by simp))
      have hc := ingredientContribution_nonneg (ingName i).toLower q hq0
      rw [calLoop, hq]
      exact calLoop_nonneg rest _ (fun j hj => h j (by simp [hj]))
        (by omega)

lemma mem_rawTags (c : Dict) (t : String) (ht : t ∈ rawTags c) :
    t = (getCategory c).toLower ∨ t = (getGlass c).toLower ∨
    t = identify_spirit_type (getIngredients c) ∨
    t = "shaken" ∨ t = "stirred" ∨ t = "muddled" ∨
    t = complexityTag (calculate_complexity_score (getIngredients c)) := by
  unfold rawTags at ht
  simp only [List.mem_append, List.mem_singleton] at ht
  rcases ht with ((((((h | h) | h) | h) | h) | h) | h)
  · left
    revert h; split <;> intro h <;> simp_all
  · right; left
    revert h; split <;> intro h <;> simp_all
  · right; right; left
    revert h; split <;> intro h <;> simp_all
  · right; right; right; left
    revert h; split <;> intro h <;> simp_all
  · right; right; right; right; left
    revert h; split <;> intro h <;> simp_all
  · right; right; right; right; right; left
    revert h; split <;> intro h <;> simp_all
  · right; right; right; right; right; right; exact h

lemma complexityTag_mem_rawTags (c : Dict) :
    complexityTag (calculate_complexity_score (getIngredients c))
      ∈ rawTags c := by
  unfold rawTags
  simp

lemma ingredientContribution_zero (name : String) :
    ingredientContribution name 0 = 0 := by
  unfold ingredientContribution
  cases calorie_map.find? (fun p => strContains name p.1) with
  | none => rfl
  | some p => simp [truncQ]

lemma calLoop_absent_amount (i : Ingredient) (l : List Ingredient)
    (acc : ℤ) (h : i.amount = none) :
    calLoop acc (i :: l) = calLoop acc l := by
  rw [calLoop, h]
  simp only [pyFloat, ingredientContribution_zero, add_zero]

lemma calLoop_bad_amount (i : Ingredient) (l : List Ingredient)
    (acc : ℤ) (s : String) (h : i.amount = some (.badStr s)) :
    calLoop acc (i :: l)
      = .error (.valueError ("could not convert string to float: " ++ s)) := by
  rw [calLoop, h]
  rfl

/-- C1: the claim says the summary step never raises out of the invocation,
including for a zero-record batch.  Evaluating the handler on an empty batch
with all storage succeeding shows the opposite: the unguarded division by
`len(data)` in `write_processing_summary` raises `ZeroDivisionError`, which
the `except ClientError` clause does not catch, so the whole invocation
fails instead of succeeding with `records_processed == 0`. -/
theorem lambda_handler_empty_batch_zero_division :
    lambda_handler emptyBatchEnv none none none = .error .zeroDivision := by
  with_unfolding_all rfl

/-- C2 counterexample: an `amount` string that `float` cannot parse is a
fatal `ValueError`: it propagates out of `estimate_calories`, aborts the
record's enrichment, and fails the whole invocation — the code does not
substitute 0 for it. -/
theorem estimate_calories_bad_amount_fatal :
    estimate_calories [badAmountIngredient]
        = .error (.valueError "could not convert string to float: two oz") ∧
    enrich_single_cocktail "T" [("ingredients", .vIngs [badAmountIngredient])]
        = .error (.valueError "could not convert string to float: two oz") ∧
    lambda_handler badAmountEnv none none none
        = .error (.valueError "could not convert string to float: two oz") := by
  refine ⟨?_, ?_, ?_⟩ <;> with_unfolding_all rfl

/-- C2 (amended): an absent `amount` is treated as 0 and the ingredient
contributes 0 calories; an `amount` string that does not parse as a number
raises `ValueError` out of the calorie estimator instead of being replaced
by 0. -/
theorem estimate_calories_amount_cases (i : Ingredient)
    (l : List Ingredient) :
    (i.amount = none → estimate_calories (i :: l) = estimate_calories l) ∧
    (∀ s, i.amount = some (.badStr s) →
      estimate_calories (i :: l)
        = .error (.valueError
            ("could not convert string to float: " ++ s))) := by
  constructor
  · intro h
    unfold estimate_calories
    exact calLoop_absent_amount i l 0 h
  · intro s h
    unfold estimate_calories
    exact calLoop_bad_amount i l 0 s h

/-- C2 witness: the amended statement evaluated at concrete ingredients. -/
theorem estimate_calories_amount_cases_witness :
    estimate_calories [⟨some "Light Rum", none⟩] = estimate_calories [] ∧
    estimate_calories [⟨some "Light Rum", some (.badStr "two")⟩]
      = .error (.valueError
          ("could not convert string to float: " ++ "two")) :=
  ⟨(estimate_calories_amount_cases ⟨some "Light Rum", none⟩ []).1 rfl,
   (estimate_calories_amount_cases
      ⟨some "Light Rum", some (.badStr "two")⟩ []).2 "two" rfl⟩

/-- C3 counterexample: the recipe whose `category` is "Simple" and whose six
plain ingredients force a complexity score of 3.0 ends up with both
"simple" (from the category) and "intermediate" (from the score) in its tag
set, so the tag set does not contain exactly one element of
the complexity-level set. -/
theorem generate_tags_two_levels :
    "simple" ∈ generate_tags categorySimpleRecipe ∧
    "intermediate" ∈ generate_tags categorySimpleRecipe ∧
    "simple" ∈ complexityLevels ∧ "intermediate" ∈ complexityLevels ∧
    ("simple" : String) ≠ "intermediate" := by
  with_unfolding_all decide

/-- C3 (amended): for every recipe the tag set has no duplicates and
contains the complexity tag determined by the recomputed score ("simple" if
score < 3, "intermediate" if < 6, else "complex"); whenever neither the
lowercased category nor the lowercased glass is itself one of the three
level words, that tag is the only complexity-level word among the tags. -/
theorem generate_tags_nodup_one_level (c : Dict)
    (hcat : (getCategory c).toLower ∉ complexityLevels)
    (hglass : (getGlass c).toLower ∉ complexityLevels) :
    (generate_tags c).Nodup ∧
    complexityTag (calculate_complexity_score (getIngredients c))
      ∈ generate_tags c ∧
    ∀ t ∈ generate_tags c, t ∈ complexityLevels →
      t = complexityTag (calculate_complexity_score (getIngredients c)) := by
  refine ⟨List.nodup_dedup _, ?_, ?_⟩
  · rw [generate_tags, List.mem_dedup]
    exact complexityTag_mem_rawTags c
  · intro t ht hlev
    rw [generate_tags, List.mem_dedup] at ht
    rcases mem_rawTags c t ht with h | h | h | h | h | h | h
    · exact absurd (h ▸ hlev) hcat
    · exact absurd (h ▸ hlev) hglass
    · exact absurd (h ▸ hlev) (identify_spirit_type_not_level _)
    · subst h; exact absurd hlev (by decide)
    · subst h; exact absurd hlev (by decide)
    · subst h; exact absurd hlev (by decide)
    · exact h

/-- C3 witness: the amended statement at the scenario recipe (whose category
and glass are absent). -/
theorem generate_tags_nodup_one_level_witness :
    (generate_tags scenarioRecipe).Nodup :=
  (generate_tags_nodup_one_level scenarioRecipe
    (by with_unfolding_all decide) (by with_unfolding_all decide)).1

/-- C4 counterexample: an ingredient named "rum" with numeric amount -1
yields -97 estimated calories, so the estimate is not ≥ 0 for every numeric
amount. -/
theorem estimate_calories_negative :
    estimate_calories [⟨some "rum", some (.num (-1))⟩] = .ok (-97) ∧
    ¬(0 ≤ (-97 : ℤ)) := by
  refine ⟨?_, by decide⟩
  with_unfolding_all rfl

/-- C4 (amended): for every ingredient list whose amounts are all absent or
non-negative numbers, `estimate_calories` returns normally and its integer
value is ≥ 0. -/
theorem estimate_calories_nonneg (l : List Ingredient)
    (h : ∀ i ∈ l, amountNonneg i.amount = true) :
    exceptOkB (estimate_calories l) = true ∧
      0 ≤ okValZ (estimate_calories l) := by
  unfold estimate_calories
  exact calLoop_nonneg l 0 h le_rfl

/-- C4 witness: the amended statement at a concrete one-ingredient list. -/
theorem estimate_calories_nonneg_witness :
    exceptOkB (estimate_calories [⟨some "rum", some (.num 2)⟩]) = true ∧
      0 ≤ okValZ (estimate_calories [⟨some "rum", some (.num 2)⟩]) :=
  estimate_calories_nonneg [⟨some "rum", some (.num 2)⟩] (by decide)

/-- C5: for every ingredient list the complexity score lies in [0, 10] and
for every instructions string the prep-time estimate lies in [3, 15]: the
score starts at 0, adds min(0.5·count, 3) and non-negative specialty and
fresh bonuses, and is capped at 10; the prep time starts at 3, adds
non-negative increments for "muddle", "shake" and max(0, steps-2), and is
capped at 15. -/
theorem complexity_and_prep_time_in_range (ingredients : List Ingredient)
    (instructions : String) :
    0 ≤ calculate_complexity_score ingredients ∧
    calculate_complexity_score ingredients ≤ 10 ∧
    3 ≤ estimate_prep_time ingredients instructions ∧
    estimate_prep_time ingredients instructions ≤ 15 :=
  ⟨(calculate_complexity_score_bounds ingredients).1,
   (calculate_complexity_score_bounds ingredients).2,
   (estimate_prep_time_bounds ingredients instructions).1,
   (estimate_prep_time_bounds ingredients instructions).2⟩

/-- C6: on the §8 scenario recipe, enrichment yields spirit_type "rum",
is_alcoholic true, ingredient_count 3, tags including "shaken" and "rum",
and estimated_calories 241 = int(97·2) + int(8·1) + int(53·0.75): the
integer truncation is applied per ingredient contribution, before summing
(not 202, the other value the spec's sentence mentions). -/
theorem scenario_enrichment_values :
    okGet (enrich_single_cocktail "T" scenarioRecipe) "spirit_type"
      = some (.vStr "rum") ∧
    okGet (enrich_single_cocktail "T" scenarioRecipe) "is_alcoholic"
      = some (.vBool true) ∧
    okGet (enrich_single_cocktail "T" scenarioRecipe) "ingredient_count"
      = some (.vInt 3) ∧
    tagsInclude (enrich_single_cocktail "T" scenarioRecipe) "shaken"
      = true ∧
    tagsInclude (enrich_single_cocktail "T" scenarioRecipe) "rum" = true ∧
    okGet (enrich_single_cocktail "T" scenarioRecipe) "estimated_calories"
      = some (.vInt 241) ∧
    truncQ (97 * 2) + truncQ (8 * 1) + truncQ (53 * (3/4)) = 241 := by
  with_unfolding_all decide

/-- C7: enrichment is idempotent on derived values: if enriching `c` gave
`d1`, then enriching `d1` again (its base fields being unchanged) returns
normally and yields the same value for every derived field except the
`enriched_at` timestamp. -/
theorem enrich_idempotent (c : Dict) (t1 t2 : String) (d1 : Dict)
    (h1 : enrich_single_cocktail t1 c = .ok d1) :
    exceptOkB (enrich_single_cocktail t2 d1) = true ∧
    ∀ d2, enrich_single_cocktail t2 d1 = .ok d2 →
      ∀ k ∈ derivedKeys, k ≠ "enriched_at" → dget d2 k = dget d1 k := by
  cases hcal : estimate_calories (getIngredients c) with
  | error e => simp [enrich_single_cocktail, hcal] at h1
  | ok cal =>
      simp only [enrich_single_cocktail, hcal, Except.ok.injEq] at h1
      subst h1
      have hIng := getIngredients_enrichedDict t1 c cal
      have hIns := getInstructions_enrichedDict t1 c cal
      have hCat := getCategory_enrichedDict t1 c cal
      have hGl := getGlass_enrichedDict t1 c cal
      have henr2 : enrich_single_cocktail t2 (enrichedDict t1 c cal)
          = .ok (enrichedDict t2 (enrichedDict t1 c cal) cal) := by
        rw [enrich_single_cocktail, hIng, hcal]
      constructor
      · rw [henr2]; rfl
      · intro d2 h2
        rw [henr2] at h2
        injection h2 with h2
        subst h2
        intro k hk hne
        fin_cases hk
        · exact absurd rfl hne
        · rw [dget_enrichedDict_ingredient_count,
            dget_enrichedDict_ingredient_count, hIng]
        · rw [dget_enrichedDict_complexity, dget_enrichedDict_complexity,
            hIng]
        · rw [dget_enrichedDict_word_count, dget_enrichedDict_word_count,
            hIns]
        · rw [dget_enrichedDict_prep, dget_enrichedDict_prep, hIng, hIns]
        · rw [dget_enrichedDict_alcoholic, dget_enrichedDict_alcoholic,
            hIng]
        · rw [dget_enrichedDict_spirit, dget_enrichedDict_spirit, hIng]
        · rw [dget_enrichedDict_calories, dget_enrichedDict_calories]
        · rw [dget_enrichedDict_tags, dget_enrichedDict_tags,
            generate_tags_congr _ _ hCat hGl hIng hIns]

/-- C7 witness: re-enriching the concrete enrichment of the empty recipe
returns normally. -/
theorem enrich_idempotent_witness :
    exceptOkB (enrich_single_cocktail "B" emptyEnriched) = true :=
  (enrich_idempotent [] "A" "B" emptyEnriched
    (by with_unfolding_all rfl)).1

/-- C8: a normal enrichment result carries every non-derived field of the
input with its original value (the source record itself is a value the pure
embedding never alters; the code copies the dict before writing), and it
carries the nine derived fields with the values of the derivers applied to
the input's base fields. -/
theorem enrich_preserves_base (c : Dict) (t : String) (d : Dict)
    (h : enrich_single_cocktail t c = .ok d) :
    (∀ k, k ∉ derivedKeys → dget d k = dget c k) ∧
    dget d "enriched_at" = some (.vStr t) ∧
    dget d "ingredient_count"
      = some (.vInt ((getIngredients c).length : ℤ)) ∧
    dget d "complexity_score"
      = some (.vNum (calculate_complexity_score (getIngredients c))) ∧
    dget d "instruction_word_count"
      = some (.vInt (instruction_word_count (getInstructions c) : ℤ)) ∧
    dget d "estimated_prep_time"
      = some (.vInt (estimate_prep_time (getIngredients c)
          (getInstructions c))) ∧
    dget d "is_alcoholic"
      = some (.vBool (is_alcoholic_flag (getIngredients c))) ∧
    dget d "spirit_type"
      = some (.vStr (identify_spirit_type (getIngredients c))) ∧
    (∀ n, estimate_calories (getIngredients c) = .ok n →
      dget d "estimated_calories" = some (.vInt n)) ∧
    dget d "tags" = some (.vTags (generate_tags c)) := by
  cases hcal : estimate_calories (getIngredients c) with
  | error e => simp [enrich_single_cocktail, hcal] at h
  | ok cal =>
      simp only [enrich_single_cocktail, hcal, Except.ok.injEq] at h
      subst h
      refine ⟨fun k hk => dget_enrichedDict_of_not_derived t c cal k hk,
        dget_enrichedDict_enriched_at t c cal,
        dget_enrichedDict_ingredient_count t c cal,
        dget_enrichedDict_complexity t c cal,
        dget_enrichedDict_word_count t c cal,
        dget_enrichedDict_prep t c cal,
        dget_enrichedDict_alcoholic t c cal,
        dget_enrichedDict_spirit t c cal,
        fun n hn => ?_,
        dget_enrichedDict_tags t c cal⟩
      injection hn with hn
      rw [dget_enrichedDict_calories, hn]

/-- C8 witness: the theorem applied to the concrete enrichment of the empty
recipe. -/
theorem enrich_preserves_base_witness :
    dget emptyEnriched "enriched_at" = some (.vStr "A") :=
  (enrich_preserves_base [] "A" emptyEnriched
    (by with_unfolding_all rfl)).2.1

/-- C9: the spirit-type deriver returns exactly what the spec describes:
the first spirit, iterating the keyword map in its fixed written order, for
which some ingredient's lowercased name contains one of that spirit's
keywords, and "non-alcoholic" when no spirit matches. -/
theorem identify_spirit_type_follows_table_order (ings : List Ingredient) :
    identify_spirit_type ings = identify_spirit_type_fromSpec ings := by
  unfold identify_spirit_type identify_spirit_type_fromSpec
  exact findSpirit_eq_find ings spirit_map

/-- C10: noninterference of derived fields: two inputs that agree on the
four fields `ingredients`, `instructions`, `category`, `glass` (each
possibly absent) produce the same success/failure outcome, and on success
the same value for every derived field except `enriched_at`; no other input
field influences any derived value. -/
theorem enrich_noninterference (c1 c2 : Dict) (t1 t2 : String)
    (hing : dget c1 "ingredients" = dget c2 "ingredients")
    (hins : dget c1 "instructions" = dget c2 "instructions")
    (hcat : dget c1 "category" = dget c2 "category")
    (hgl : dget c1 "glass" = dget c2 "glass") :
    exceptOkB (enrich_single_cocktail t1 c1)
      = exceptOkB (enrich_single_cocktail t2 c2) ∧
    ∀ d1 d2, enrich_single_cocktail t1 c1 = .ok d1 →
      enrich_single_cocktail t2 c2 = .ok d2 →
      ∀ k ∈ derivedKeys, k ≠ "enriched_at" → dget d1 k = dget d2 k := by
  have hIng : getIngredients c1 = getIngredients c2 := by
    unfold getIngredients; rw [hing]
  have hIns : getInstructions c1 = getInstructions c2 := by
    unfold getInstructions; rw [hins]
  have hCat : getCategory c1 = getCategory c2 := by
    unfold getCategory; rw [hcat]
  have hGl : getGlass c1 = getGlass c2 := by
    unfold getGlass; rw [hgl]
  constructor
  · unfold enrich_single_cocktail
    rw [hIng]
    cases estimate_calories (getIngredients c2) <;> rfl
  · intro d1 d2 h1 h2
    cases hcal : estimate_calories (getIngredients c2) with
    | error e =>
        simp [enrich_single_cocktail, hIng, hcal] at h1
    | ok cal =>
        simp only [enrich_single_cocktail, hIng, hcal,
          Except.ok.injEq] at h1 h2
        subst h1
        subst h2
        intro k hk hne
        fin_cases hk
        · exact absurd rfl hne
        · rw [dget_enrichedDict_ingredient_count,
            dget_enrichedDict_ingredient_count, hIng]
        · rw [dget_enrichedDict_complexity, dget_enrichedDict_complexity,
            hIng]
        · rw [dget_enrichedDict_word_count, dget_enrichedDict_word_count,
            hIns]
        · rw [dget_enrichedDict_prep, dget_enrichedDict_prep, hIng, hIns]
        · rw [dget_enrichedDict_alcoholic, dget_enrichedDict_alcoholic,
            hIng]
        · rw [dget_enrichedDict_spirit, dget_enrichedDict_spirit, hIng]
        · rw [dget_enrichedDict_calories, dget_enrichedDict_calories]
        · rw [dget_enrichedDict_tags, dget_enrichedDict_tags,
            generate_tags_congr _ _ hCat hGl hIng hIns]

/-- C10 witness: the theorem applied to the empty recipe and a recipe that
differs from it only in a field outside the four base fields. -/
theorem enrich_noninterference_witness :
    exceptOkB (enrich_single_cocktail "A" [])
      = exceptOkB (enrich_single_cocktail "B"
          [("name", .vStr "Margarita")]) :=
  (enrich_noninterference [] [("name", .vStr "Margarita")] "A" "B"
    (by with_unfolding_all rfl) (by with_unfolding_all rfl)
    (by with_unfolding_all rfl) (by with_unfolding_all rfl)).1
